import Mathlib

/-! Verification of the runner-game core (`src/App.jsx`, hook `useGameLogic`).

The per-frame state updater passed to `setGameState` inside `gameLoop`
(App.jsx lines 259-403) is embedded as a pure function `gameLoop` on an
explicit engine state.  The React refs that the updater reads or writes
(`scoreAnnouncingRef`, `lastAnnouncedScoreRef`, `timeToNextSpawnRef`,
`lastTimestampRef`, and the current-car-sound refs) are fields of
`EngineState`; the `speak` calls are recorded in a ghost `announcements`
log, and audio-source `stop()`/`disconnect()` pairs are recorded in a
ghost `stops` log so that voice lifecycle can be audited.  Randomness
(`Math.random()` for spawn lane and id, and for the spawn threshold) is
supplied as explicit parameters.  Positions stay integral in the source
(they start at -50 and only ever gain +3), so positions are `Int`;
timestamps and the spawn threshold are `Rat`.
-/

namespace RunnerGame

/-- Player / obstacle lane, source strings "left" / "right". -/
inductive Lane where
  | left
  | right
deriving DecidableEq

/-- Game status, source strings "idle" / "running" / "paused" / "game over". -/
inductive Status where
  | idle
  | running
  | paused
  | gameOver
deriving DecidableEq

/-- An obstacle car: `{ id, lane, position }` as pushed at App.jsx 274-278.
The random string id is modelled as a natural number supplied per spawn. -/
structure Car where
  id : ℕ
  lane : Lane
  position : ℤ
deriving DecidableEq

/-- The React `gameState`: `{ status, score, playerLane, cars }` (App.jsx 5-10). -/
structure GameSnapshot where
  status : Status
  score : ℕ
  playerLane : Lane
  cars : List Car
deriving DecidableEq

/-- The single-voice audio refs of App.jsx 116-119.  `currentVoice` stands for
`currentCarSoundRef` (voices are numbered by creation order through
`nextVoice`, a ghost counter), `currentCarId` for `currentCarIdRef`.
`stops` is a ghost log of the voices on which `stop()`/`disconnect()` has
been called, in order. -/
structure AudioState where
  currentVoice : Option ℕ
  currentCarId : Option ℕ
  nextVoice : ℕ
  stops : List ℕ
deriving DecidableEq

/-- The whole mutable state the game-loop updater can read or write:
the snapshot plus the refs.  `announcements` is a ghost log of the scores
passed to `speak` at App.jsx 392. -/
structure EngineState where
  game : GameSnapshot
  scoreAnnouncing : Bool
  lastAnnouncedScore : ℕ
  announcements : List ℕ
  timeToNextSpawn : ℚ
  lastTimestamp : ℚ
  audio : AudioState
deriving DecidableEq

/-- The `timestamp` argument of `gameLoop` together with the random draws a
tick may consume: the spawn lane (`Math.random() < 0.5`, App.jsx 276) and
the spawn id (App.jsx 275). -/
structure TickEvent where
  timestamp : ℚ
  spawnLane : Lane
  spawnId : ℕ
deriving DecidableEq

/-- App.jsx 254. -/
def PLAYER_HIT_ZONE : ℤ := 650

/-- App.jsx 257. -/
def CAR_SPEED : ℤ := 3

/-- App.jsx 255. -/
def SOUND_ZONE_START : ℤ := 100

/-- Spawn position of a new car, App.jsx 277. -/
def SPAWN_POSITION : ℤ := -50

/-- The crossing predicate used by both the collision check (App.jsx 363-368)
and the scoring filter (App.jsx 377-381):
`position < PLAYER_HIT_ZONE && position + CAR_SPEED >= PLAYER_HIT_ZONE`. -/
def crosses (p : ℤ) : Prop :=
  p < PLAYER_HIT_ZONE ∧ PLAYER_HIT_ZONE ≤ p + CAR_SPEED

instance : DecidablePred crosses := fun p => by
  unfold crosses; infer_instance

/-- One car advanced by `CAR_SPEED` (App.jsx 267-270). -/
def moveCar (c : Car) : Car :=
  { c with position := c.position + CAR_SPEED }

/-- Movement and culling: `prev.cars.map(move).filter(position < 700)` (App.jsx 266-271). -/
def movedCars (cars : List Car) : List Car :=
  (cars.map moveCar).filter (fun c => c.position < 700)

/-- The collision test of App.jsx 363-368, over the pre-advance cars. -/
def collisionOn (g : GameSnapshot) : Bool :=
  g.cars.any (fun c => c.lane == g.playerLane && decide (crosses c.position))

/-- The `passedCars` count of App.jsx 377-381: how many pre-advance cars cross the
hit line on this tick. -/
def passedCars (cars : List Car) : ℕ :=
  (cars.filter (fun c => decide (crosses c.position))).length

/-- The `carForSound` selection (App.jsx 282-284): among the cars with
`position < PLAYER_HIT_ZONE + 100`, the one with the greatest position
(first such car on ties, matching a stable descending sort). -/
def carForSound (cars : List Car) : Option Car :=
  (cars.filter (fun c => c.position < PLAYER_HIT_ZONE + 100)).foldl
    (fun acc c =>
      match acc with
      | none => some c
      | some b => if b.position < c.position then some c else some b)
    none

/-- Stop the current voice, keeping `currentCarId` (App.jsx 290-294). -/
def stopVoice (a : AudioState) : AudioState :=
  match a.currentVoice with
  | some v => { a with currentVoice := none, stops := a.stops ++ [v] }
  | none => a

/-- Stop the current voice and clear the car id (App.jsx 340-348 and
352-359). -/
def stopVoiceClear (a : AudioState) : AudioState :=
  match a.currentVoice with
  | some v =>
      { a with currentVoice := none, currentCarId := none, stops := a.stops ++ [v] }
  | none => a

/-- App.jsx 288-321: when the sound-target car changed identity, stop the
previous voice and — if the new car is inside the activation window
`(SOUND_ZONE_START, PLAYER_HIT_ZONE + 100)` — create and start a voice for
it (numbered by the ghost allocation counter). -/
def audioSwitch (a : AudioState) (cfs : Car) : AudioState :=
  if a.currentCarId = some cfs.id then a
  else if SOUND_ZONE_START < cfs.position ∧ cfs.position < PLAYER_HIT_ZONE + 100 then
    { stopVoice a with
        currentVoice := some (stopVoice a).nextVoice
        currentCarId := some cfs.id
        nextVoice := (stopVoice a).nextVoice + 1 }
  else stopVoice a

/-- The audio block of the updater (App.jsx 281-360), restricted to voice
lifecycle: the gain and pan assignments (App.jsx 322-338) mutate only the
parameters of the already-live voice and are not modelled.  After the identity
switch, the voice is stopped once the car is past
`PLAYER_HIT_ZONE + 80` (App.jsx 340-349), and with no sound-target car any
voice is stopped (App.jsx 350-360). -/
def audioStep (a : AudioState) (newCars : List Car) : AudioState :=
  match carForSound newCars with
  | some cfs =>
      if PLAYER_HIT_ZONE + 80 < cfs.position then stopVoiceClear (audioSwitch a cfs)
      else audioSwitch a cfs
  | none => stopVoiceClear a

/-- The `newCars` local of the updater (App.jsx 266-279): move and cull,
then push a single spawn at `SPAWN_POSITION` when the list came up empty. -/
def newCarsOf (s : EngineState) (e : TickEvent) : List Car :=
  if (movedCars s.game.cars).isEmpty then
    [{ id := e.spawnId, lane := e.spawnLane, position := SPAWN_POSITION }]
  else movedCars s.game.cars

/-- The `newScore` local of the updater (App.jsx 383). -/
def newScoreOf (s : EngineState) : ℕ :=
  s.game.score + passedCars s.game.cars

/-- The body of the updater once both early-return guards have been passed
(App.jsx 266-402): move and cull cars, spawn when empty, run the audio
block on the new cars, then either game-over on collision (cars and score
kept at their pre-tick values) or apply the score and the milestone
announcement. -/
def effectiveTick (s : EngineState) (e : TickEvent) : EngineState :=
  if collisionOn s.game then
    { s with
        game := { s.game with status := Status.gameOver }
        audio := audioStep s.audio (newCarsOf s e) }
  else if 0 < newScoreOf s ∧ newScoreOf s % 5 = 0 ∧ newScoreOf s ≠ s.lastAnnouncedScore then
    { s with
        game := { s.game with cars := newCarsOf s e, score := newScoreOf s }
        scoreAnnouncing := true
        lastAnnouncedScore := newScoreOf s
        announcements := s.announcements ++ [newScoreOf s]
        audio := audioStep s.audio (newCarsOf s e) }
  else
    { s with
        game := { s.game with cars := newCarsOf s e, score := newScoreOf s }
        audio := audioStep s.audio (newCarsOf s e) }

/-- One tick of the game-loop updater (App.jsx 259-403).  The effect hosting
the loop returns early unless `status === "running"` (App.jsx 250) and
cancels the pending frame on any status change (App.jsx 410), so a tick
processed in any non-running status leaves the state untouched; the frozen
early return is App.jsx 262-264.  The `timestamp` argument of the source
`gameLoop` is never read by the updater. -/
def gameLoop (s : EngineState) (e : TickEvent) : EngineState :=
  if s.game.status ≠ Status.running then s
  else if s.scoreAnnouncing then s
  else effectiveTick s e

/-- The `startGame` action (App.jsx 64-74): reset the snapshot and redraw the spawn
threshold (`800 + Math.random() * 800`, with `r` the random draw) and the
last timestamp.  The refs `scoreAnnouncingRef`, `lastAnnouncedScoreRef`
and the audio refs are not touched. -/
def startGame (s : EngineState) (now r : ℚ) : EngineState :=
  { s with
      game := { status := Status.running, score := 0, playerLane := Lane.left, cars := [] }
      timeToNextSpawn := 800 + r * 800
      lastTimestamp := now }

/-- The `onend` callback of the score announcement (App.jsx 392-394):
the Announcer reports completion and the freeze flag clears. -/
def announceDone (s : EngineState) : EngineState :=
  { s with scoreAnnouncing := false }

/-- A run: fold the game-loop updater over a list of tick events. -/
def run (s : EngineState) (evs : List TickEvent) : EngineState :=
  evs.foldl gameLoop s

/-- The engine state at component mount: `useState` initial snapshot
(App.jsx 5-10) and the zero-initialised refs (App.jsx 18-22, 116-119). -/
def initState : EngineState :=
  { game := { status := Status.idle, score := 0, playerLane := Lane.left, cars := [] }
    scoreAnnouncing := false
    lastAnnouncedScore := 0
    announcements := []
    timeToNextSpawn := 0
    lastTimestamp := 0
    audio := { currentVoice := none, currentCarId := none, nextVoice := 0, stops := [] } }

/-- The number of scoring transitions a tick contributes: the count of
pre-advance cars crossing the hit line, provided the tick is effective
(running, not frozen) and no collision pre-empts scoring. -/
def crossDelta (s : EngineState) : ℕ :=
  if s.game.status = Status.running ∧ s.scoreAnnouncing = false ∧ collisionOn s.game = false
  then passedCars s.game.cars else 0

/-- Total scoring transitions along a run. -/
def scoreGain : EngineState → List TickEvent → ℕ
  | _, [] => 0
  | s, e :: evs => crossDelta s + scoreGain (gameLoop s e) evs

/-- The condition under which the tick appends a new car (App.jsx 273):
the post-move, post-cull list is empty, on a tick that reaches that code. -/
def spawnsOn (s : EngineState) : Prop :=
  s.game.status = Status.running ∧ s.scoreAnnouncing = false ∧ movedCars s.game.cars = []

instance : DecidablePred spawnsOn := fun s => by
  unfold spawnsOn; infer_instance

/-- Modelled from the spec: the `normalize` of the spec for claim C5 — it
"divides the measured per-tick delta time by a fixed reference frame
duration"; absent from the source, where movement is a constant
`CAR_SPEED` per tick. -/
def normalizeDt (dt ref : ℚ) : ℚ := dt / ref

/-- Position of the first car of the snapshot (0 when there is none);
an observation helper for the movement claims. -/
def firstCarPosition (s : EngineState) : ℤ :=
  match s.game.cars with
  | [] => 0
  | c :: _ => c.position

/-! Concrete states and events used by witnesses and counterexamples. -/

/-- A running state with a car at 648 in the lane of the player: it crosses the
hit line on the next tick, so that tick is a collision tick. -/
def sColl : EngineState :=
  { game := { status := Status.running, score := 2, playerLane := Lane.left,
              cars := [{ id := 1, lane := Lane.left, position := 648 }] }
    scoreAnnouncing := false
    lastAnnouncedScore := 0
    announcements := []
    timeToNextSpawn := 900
    lastTimestamp := 0
    audio := { currentVoice := some 0, currentCarId := some 1, nextVoice := 1,
               stops := [] } }

/-- A frozen mid-game state: the score-5 announcement is in flight. -/
def sFrozen : EngineState :=
  { game := { status := Status.running, score := 5, playerLane := Lane.left,
              cars := [{ id := 4, lane := Lane.right, position := 200 }] }
    scoreAnnouncing := true
    lastAnnouncedScore := 5
    announcements := [5]
    timeToNextSpawn := 900
    lastTimestamp := 0
    audio := { currentVoice := some 0, currentCarId := some 4, nextVoice := 1,
               stops := [] } }

/-- A game-over state with a live audio voice (voice 0 bound to car id 2),
as left behind by a crash. -/
def sOver : EngineState :=
  { game := { status := Status.gameOver, score := 3, playerLane := Lane.right,
              cars := [{ id := 2, lane := Lane.right, position := 648 }] }
    scoreAnnouncing := false
    lastAnnouncedScore := 0
    announcements := []
    timeToNextSpawn := 900
    lastTimestamp := 0
    audio := { currentVoice := some 0, currentCarId := some 2, nextVoice := 1,
               stops := [] } }

/-- A running state with one car at 100 in the opposite lane, used to
observe per-tick displacement. -/
def sMove : EngineState :=
  { game := { status := Status.running, score := 0, playerLane := Lane.left,
              cars := [{ id := 1, lane := Lane.right, position := 100 }] }
    scoreAnnouncing := false
    lastAnnouncedScore := 0
    announcements := []
    timeToNextSpawn := 800
    lastTimestamp := 0
    audio := { currentVoice := none, currentCarId := none, nextVoice := 0, stops := [] } }

/-- A running state at score 4 with a car at 648 in the opposite lane: the
next tick scores the fifth point and hits the announcement milestone. -/
def sFour : EngineState :=
  { game := { status := Status.running, score := 4, playerLane := Lane.left,
              cars := [{ id := 2, lane := Lane.right, position := 648 }] }
    scoreAnnouncing := false
    lastAnnouncedScore := 0
    announcements := []
    timeToNextSpawn := 900
    lastTimestamp := 0
    audio := { currentVoice := some 0, currentCarId := some 2, nextVoice := 1,
               stops := [] } }

/-- A generic tick event. -/
def eTick : TickEvent := { timestamp := 16, spawnLane := Lane.right, spawnId := 9 }

/-- The state right after pressing start on a fresh mount, with random
draw 0: threshold `800 + 0 * 800 = 800`, started at timestamp 0. -/
def sStart : EngineState := startGame initState 0 0

/-- The first frame after `sStart`, one millisecond in. -/
def eFirst : TickEvent := { timestamp := 1, spawnLane := Lane.left, spawnId := 1 }

/-- The per-tick displacement of the car of `sMove` when the tick is given
delta/timestamp `dt`, as a rational. -/
def c5Delta (dt : ℚ) : ℚ :=
  ((firstCarPosition (gameLoop sMove { timestamp := dt, spawnLane := Lane.left, spawnId := 5 })
      - firstCarPosition sMove : ℤ) : ℚ)

/-- Voice-lifecycle invariant for a voice `v` that has been released:
it appears exactly once in the stop log, is no longer the current voice,
and its number is below the allocation counter (so it can never be
re-created and stopped again). -/
def audioInv (v : ℕ) (a : AudioState) : Prop :=
  a.stops.count v = 1 ∧ a.currentVoice ≠ some v ∧ v < a.nextVoice

/-! Helper lemmas shared by the claim theorems. -/

theorem gameLoop_not_running (s : EngineState) (e : TickEvent)
    (h : s.game.status ≠ Status.running) : gameLoop s e = s := by
  unfold gameLoop
  rw [if_pos h]

theorem gameLoop_frozen (s : EngineState) (e : TickEvent)
    (h : s.scoreAnnouncing = true) : gameLoop s e = s := by
  unfold gameLoop
  by_cases h1 : s.game.status ≠ Status.running
  · rw [if_pos h1]
  · rw [if_neg h1, if_pos h]

theorem run_frozen (s : EngineState) (h : s.scoreAnnouncing = true)
    (evs : List TickEvent) : run s evs = s := by
  induction evs with
  | nil => rfl
  | cons e evs ih =>
      simp only [run, List.foldl_cons] at *
      rw [gameLoop_frozen s e h]
      exact ih

theorem gameLoop_score (s : EngineState) (e : TickEvent) :
    (gameLoop s e).game.score = s.game.score + crossDelta s := by
  unfold gameLoop crossDelta effectiveTick
  by_cases h1 : s.game.status = Status.running
  · by_cases h2 : s.scoreAnnouncing
    · simp [h1, h2]
    · by_cases h3 : collisionOn s.game
      · simp [h1, h2, h3]
      · simp only [h1, h2, h3, ne_eq, not_true_eq_false, if_false, Bool.false_eq_true,
          if_true, and_true, and_self, eq_self_iff_true, not_false_eq_true]
        split_ifs <;> simp [newScoreOf]
  · simp [h1]

theorem run_score (s : EngineState) (evs : List TickEvent) :
    (run s evs).game.score = s.game.score + scoreGain s evs := by
  induction evs generalizing s with
  | nil => simp [run, scoreGain]
  | cons e evs ih =>
      simp only [run, List.foldl_cons, scoreGain]
      have := ih (gameLoop s e)
      simp only [run] at this
      rw [this, gameLoop_score s e]
      omega

theorem collision_movedCars_ne_nil (g : GameSnapshot)
    (h : collisionOn g = true) : movedCars g.cars ≠ [] := by
  unfold collisionOn at h
  rw [List.any_eq_true] at h
  obtain ⟨c, hc, hcond⟩ := h
  rw [Bool.and_eq_true] at hcond
  have hcr : crosses c.position := of_decide_eq_true hcond.2
  intro hnil
  have hmem : moveCar c ∈ movedCars g.cars := by
    unfold movedCars
    rw [List.mem_filter]
    refine ⟨List.mem_map_of_mem _ hc, decide_eq_true ?_⟩
    unfold crosses PLAYER_HIT_ZONE CAR_SPEED at hcr
    unfold moveCar CAR_SPEED
    simp only
    omega
  rw [hnil] at hmem
  exact (List.not_mem_nil _ hmem)

theorem gameLoop_effective (s : EngineState) (e : TickEvent)
    (hrun : s.game.status = Status.running) (hfr : s.scoreAnnouncing = false) :
    gameLoop s e = effectiveTick s e := by
  unfold gameLoop
  rw [if_neg (by simp [hrun]), if_neg (by simp [hfr])]

theorem gameLoop_collision_cars (s : EngineState) (e : TickEvent)
    (hrun : s.game.status = Status.running) (hfr : s.scoreAnnouncing = false)
    (hcol : collisionOn s.game = true) :
    (gameLoop s e).game.cars = s.game.cars ∧
    (gameLoop s e).game.status = Status.gameOver := by
  rw [gameLoop_effective s e hrun hfr]
  unfold effectiveTick
  simp [hcol]

theorem gameLoop_cars_shape (s : EngineState) (e : TickEvent)
    (hrun : s.game.status = Status.running) (hfr : s.scoreAnnouncing = false)
    (hcol : collisionOn s.game = false) :
    (gameLoop s e).game.cars = newCarsOf s e := by
  rw [gameLoop_effective s e hrun hfr]
  unfold effectiveTick
  simp only [hcol, Bool.false_eq_true, if_false]
  split_ifs <;> rfl

theorem gameLoop_audio_shape (s : EngineState) (e : TickEvent)
    (hrun : s.game.status = Status.running) (hfr : s.scoreAnnouncing = false) :
    (gameLoop s e).audio = audioStep s.audio (newCarsOf s e) := by
  rw [gameLoop_effective s e hrun hfr]
  unfold effectiveTick
  split_ifs <;> rfl

theorem stopVoice_nextVoice (a : AudioState) :
    (stopVoice a).nextVoice = a.nextVoice := by
  unfold stopVoice
  cases a.currentVoice <;> rfl

theorem audioInv_stopVoice (v : ℕ) (a : AudioState) (h : audioInv v a) :
    audioInv v (stopVoice a) := by
  obtain ⟨h1, h2, h3⟩ := h
  unfold stopVoice
  cases hc : a.currentVoice with
  | none => exact ⟨h1, h2, h3⟩
  | some w =>
      have hw : v ≠ w := fun hvw => h2 (by rw [hc, hvw])
      refine ⟨?_, by simp, h3⟩
      rw [List.count_append]
      simp [List.count_cons, List.count_nil, hw, h1]

theorem audioInv_stopVoiceClear (v : ℕ) (a : AudioState) (h : audioInv v a) :
    audioInv v (stopVoiceClear a) := by
  obtain ⟨h1, h2, h3⟩ := h
  unfold stopVoiceClear
  cases hc : a.currentVoice with
  | none => exact ⟨h1, h2, h3⟩
  | some w =>
      have hw : v ≠ w := fun hvw => h2 (by rw [hc, hvw])
      refine ⟨?_, by simp, h3⟩
      rw [List.count_append]
      simp [List.count_cons, List.count_nil, hw, h1]

theorem audioInv_audioSwitch (v : ℕ) (a : AudioState) (cfs : Car)
    (h : audioInv v a) : audioInv v (audioSwitch a cfs) := by
  unfold audioSwitch
  split_ifs with hid hzone
  · exact h
  · obtain ⟨h1, h2, h3⟩ := audioInv_stopVoice v a h
    rw [stopVoice_nextVoice] at h3
    refine ⟨h1, ?_, ?_⟩
    · show ¬ (some (stopVoice a).nextVoice = some v)
      rw [stopVoice_nextVoice]
      simp only [Option.some.injEq]
      omega
    · show v < (stopVoice a).nextVoice + 1
      rw [stopVoice_nextVoice]
      omega
  · exact audioInv_stopVoice v a h

theorem audioInv_audioStep (v : ℕ) (a : AudioState) (cars : List Car)
    (h : audioInv v a) : audioInv v (audioStep a cars) := by
  unfold audioStep
  cases hc : carForSound cars with
  | none => exact audioInv_stopVoiceClear v a h
  | some cfs =>
      show audioInv v
        (if PLAYER_HIT_ZONE + 80 < cfs.position then stopVoiceClear (audioSwitch a cfs)
         else audioSwitch a cfs)
      split_ifs
      · exact audioInv_stopVoiceClear v _ (audioInv_audioSwitch v a cfs h)
      · exact audioInv_audioSwitch v a cfs h

theorem audioInv_gameLoop (v : ℕ) (s : EngineState) (e : TickEvent)
    (h : audioInv v s.audio) : audioInv v (gameLoop s e).audio := by
  by_cases hrun : s.game.status = Status.running
  · by_cases hfr : s.scoreAnnouncing
    · rw [gameLoop_frozen s e hfr]
      exact h
    · have hfr2 : s.scoreAnnouncing = false := by simpa using hfr
      rw [gameLoop_audio_shape s e hrun hfr2]
      exact audioInv_audioStep v s.audio _ h
  · rw [gameLoop_not_running s e hrun]
    exact h

theorem audioInv_run (v : ℕ) (s : EngineState) (evs : List TickEvent)
    (h : audioInv v s.audio) : audioInv v (run s evs).audio := by
  induction evs generalizing s with
  | nil => exact h
  | cons e evs ih => exact ih (gameLoop s e) (audioInv_gameLoop v s e h)

theorem audioStep_spawn (a : AudioState) (c : Car) (v oldId : ℕ)
    (hv : a.currentVoice = some v) (hid : a.currentCarId = some oldId)
    (hfresh : c.id ≠ oldId) (hpos : c.position = SPAWN_POSITION) :
    audioStep a [c] = { currentVoice := none, currentCarId := some oldId,
                        nextVoice := a.nextVoice, stops := a.stops ++ [v] } := by
  obtain ⟨cv, cid, nv, st⟩ := a
  obtain ⟨ci, cl, cp⟩ := c
  dsimp only at hv hid hfresh hpos
  subst hv hid hpos
  have hne : ¬ ((some oldId : Option ℕ) = some ci) := by
    simp only [Option.some.injEq]
    exact fun hh => hfresh hh.symm
  simp [audioStep, carForSound, audioSwitch, stopVoice, SPAWN_POSITION,
    PLAYER_HIT_ZONE, SOUND_ZONE_START, hne]

theorem movedCars_length_le (cars : List Car) :
    (movedCars cars).length ≤ cars.length := by
  unfold movedCars
  calc ((cars.map moveCar).filter (fun c => c.position < 700)).length
      ≤ (cars.map moveCar).length := List.length_filter_le _ _
    _ = cars.length := List.length_map _ _

theorem gameLoop_cars_length_one (s : EngineState) (e : TickEvent)
    (hlen : s.game.cars.length ≤ 1) (hrun : s.game.status = Status.running)
    (hfr : s.scoreAnnouncing = false) :
    (gameLoop s e).game.cars.length = 1 := by
  by_cases hcol : collisionOn s.game = true
  · rw [(gameLoop_collision_cars s e hrun hfr hcol).1]
    have hne : s.game.cars ≠ [] := by
      intro hnil
      unfold collisionOn at hcol
      rw [hnil] at hcol
      simp at hcol
    have hpos := List.length_pos.mpr hne
    omega
  · have hcol2 : collisionOn s.game = false := by simpa using hcol
    rw [gameLoop_cars_shape s e hrun hfr hcol2]
    unfold newCarsOf
    split_ifs with hemp
    · rfl
    · have hle := movedCars_length_le s.game.cars
      have hne : movedCars s.game.cars ≠ [] := by
        intro hnil
        rw [hnil] at hemp
        simp at hemp
      have hpos := List.length_pos.mpr hne
      omega

theorem gameLoop_cars_le_one (s : EngineState) (e : TickEvent)
    (hlen : s.game.cars.length ≤ 1) : (gameLoop s e).game.cars.length ≤ 1 := by
  by_cases hrun : s.game.status = Status.running
  · by_cases hfr : s.scoreAnnouncing
    · rw [gameLoop_frozen s e hfr]
      exact hlen
    · have hfr2 : s.scoreAnnouncing = false := by simpa using hfr
      rw [gameLoop_cars_length_one s e hlen hrun hfr2]
  · rw [gameLoop_not_running s e hrun]
    exact hlen

theorem run_cars_le_one (s : EngineState) (evs : List TickEvent)
    (hlen : s.game.cars.length ≤ 1) : (run s evs).game.cars.length ≤ 1 := by
  induction evs generalizing s with
  | nil => exact hlen
  | cons e evs ih => exact ih (gameLoop s e) (gameLoop_cars_le_one s e hlen)

/-! Claim theorems. -/

/-- C1: for every obstacle, advancing by `CAR_SPEED` per tick, the scoring
predicate `crosses` (pre-advance position `p0` with
`p0 < PLAYER_HIT_ZONE ≤ p0 + CAR_SPEED`) holds on at most one tick of its
trajectory; and over any run, the score equals the accumulated count of
obstacles making this scoring transition on effective, collision-free
ticks (`scoreGain`). -/
theorem c1_score_counts_crossings :
    (∀ (p : ℤ) (j k : ℕ),
        crosses (p + CAR_SPEED * (j : ℤ)) → crosses (p + CAR_SPEED * (k : ℤ)) → j = k) ∧
    (∀ (s : EngineState) (evs : List TickEvent),
        (run s evs).game.score = s.game.score + scoreGain s evs) := by
  constructor
  · intro p j k h1 h2
    unfold crosses PLAYER_HIT_ZONE CAR_SPEED at h1 h2
    omega
  · exact run_score

/-- C1 witness: position -50 + 3·233 = 649 crosses the hit line, and a
concrete one-tick run starting with a car at 648 gains exactly one point. -/
theorem c1_score_counts_crossings_witness : (233 : ℕ) = 233 ∧
    (run initState []).game.score = initState.game.score + scoreGain initState [] :=
  ⟨c1_score_counts_crossings.1 (-50) 233 233 (by decide) (by decide),
   c1_score_counts_crossings.2 initState []⟩

/-- C2: on a tick where some pre-advance obstacle in the lane of the player
crosses the hit line (`collisionOn`), the status becomes `gameOver` while
the score and the obstacle list keep their pre-tick values; in particular
the colliding obstacle contributes no score increment — collision takes
precedence over scoring. -/
theorem c2_collision_precedence (s : EngineState) (e : TickEvent)
    (hrun : s.game.status = Status.running)
    (hfr : s.scoreAnnouncing = false)
    (hcol : collisionOn s.game = true) :
    (gameLoop s e).game.status = Status.gameOver ∧
    (gameLoop s e).game.cars = s.game.cars ∧
    (gameLoop s e).game.score = s.game.score := by
  unfold gameLoop effectiveTick
  simp [hrun, hfr, hcol]

/-- C2 witness: a car at 648 in the lane of the player collides on this tick;
score and cars are frozen at their pre-tick values. -/
theorem c2_collision_precedence_witness :
    sColl.game.status = Status.running ∧ sColl.scoreAnnouncing = false ∧
    collisionOn sColl.game = true ∧
    (gameLoop sColl eTick).game.status = Status.gameOver ∧
    (gameLoop sColl eTick).game.cars = sColl.game.cars ∧
    (gameLoop sColl eTick).game.score = sColl.game.score :=
  ⟨rfl, rfl, by decide,
   c2_collision_precedence sColl eTick rfl rfl (by decide)⟩

/-- C3: any tick processed while the Announcer freeze flag is asserted
returns the engine state unchanged: no obstacle moves, none spawns, and
the score (and everything else) is untouched. -/
theorem c3_frozen_tick_unchanged (s : EngineState) (e : TickEvent)
    (h : s.scoreAnnouncing = true) : gameLoop s e = s :=
  gameLoop_frozen s e h

/-- C3 witness at a concrete frozen mid-game state. -/
theorem c3_frozen_tick_unchanged_witness :
    sFrozen.scoreAnnouncing = true ∧ gameLoop sFrozen eTick = sFrozen :=
  ⟨rfl, c3_frozen_tick_unchanged sFrozen eTick rfl⟩

/-- C4: a tick processed while the status is not `running` leaves the
engine state unchanged — no obstacle position advances, no obstacle is
added, and the score is unchanged.  (In the source this is enforced by
the hosting effect, which never schedules the loop unless
`status === "running"` and cancels the pending frame on status change.) -/
theorem c4_not_running_tick_unchanged (s : EngineState) (e : TickEvent)
    (h : s.game.status ≠ Status.running) : gameLoop s e = s :=
  gameLoop_not_running s e h

/-- C4 witness at a concrete game-over state. -/
theorem c4_not_running_tick_unchanged_witness :
    sOver.game.status ≠ Status.running ∧ gameLoop sOver eTick = sOver :=
  ⟨by decide, c4_not_running_tick_unchanged sOver eTick (by decide)⟩

/-- C5 counterexample: the claim that each obstacle advances by
`speed × normalize(deltaTime)` for some fixed reference frame duration is
false: the per-tick displacement observed through `gameLoop` is the
constant 3 whatever timestamp the tick carries (the source `gameLoop(timestamp)`
never reads its timestamp), so no positive reference duration can make
`3 = CAR_SPEED · dt / ref` hold for all `dt`. -/
theorem c5_counterexample :
    ¬ ∃ ref : ℚ, 0 < ref ∧ ∀ dt : ℚ,
        c5Delta dt = (CAR_SPEED : ℚ) * normalizeDt dt ref := by
  rintro ⟨ref, href, h⟩
  have hconst : ∀ dt : ℚ, c5Delta dt = 3 := fun _ => rfl
  have hne : ref ≠ 0 := ne_of_gt href
  have h2 := h (2 * ref)
  rw [hconst] at h2
  unfold normalizeDt CAR_SPEED at h2
  have hdv : (2 * ref) / ref = 2 := by field_simp
  rw [hdv] at h2
  push_cast at h2
  norm_num at h2

/-- C5 amended: the position of every obstacle advances by exactly
`CAR_SPEED = 3` on each effective tick, independent of the timestamp
of the tick (delta time is never consulted), so per-real-time speed depends
on the tick rate: a surviving moved car is in the post-tick list, and the
tick result does not depend on the timestamp at all. -/
theorem c5_fixed_advance_per_tick :
    (∀ (s : EngineState) (ts1 ts2 : ℚ) (l : Lane) (i : ℕ),
        gameLoop s { timestamp := ts1, spawnLane := l, spawnId := i }
          = gameLoop s { timestamp := ts2, spawnLane := l, spawnId := i }) ∧
    (∀ (s : EngineState) (e : TickEvent) (c : Car),
        s.game.status = Status.running → s.scoreAnnouncing = false →
        collisionOn s.game = false → c ∈ s.game.cars → (moveCar c).position < 700 →
        moveCar c ∈ (gameLoop s e).game.cars) := by
  constructor
  · intro s ts1 ts2 l i
    rfl
  · intro s e c hrun hfr hcol hc hpos
    rw [gameLoop_cars_shape s e hrun hfr hcol]
    have hkept : moveCar c ∈ movedCars s.game.cars := by
      unfold movedCars
      rw [List.mem_filter]
      exact ⟨List.mem_map_of_mem _ hc, decide_eq_true hpos⟩
    have hemp : (movedCars s.game.cars).isEmpty = false := by
      cases hm : movedCars s.game.cars with
      | nil => rw [hm] at hkept; exact absurd hkept (List.not_mem_nil _)
      | cons a l => rfl
    simp [newCarsOf, hemp, hkept]

/-- C5 witness: the tick result is the same at timestamps 0 and 7, and the
car of `sMove` at 100 is at 103 after the tick. -/
theorem c5_fixed_advance_per_tick_witness :
    gameLoop sMove { timestamp := 0, spawnLane := Lane.left, spawnId := 5 }
      = gameLoop sMove { timestamp := 7, spawnLane := Lane.left, spawnId := 5 } ∧
    sMove.game.status = Status.running ∧ sMove.scoreAnnouncing = false ∧
    collisionOn sMove.game = false ∧
    moveCar { id := 1, lane := Lane.right, position := 100 }
      ∈ (gameLoop sMove eTick).game.cars :=
  ⟨c5_fixed_advance_per_tick.1 sMove 0 7 Lane.left 5,
   rfl, rfl, by decide,
   c5_fixed_advance_per_tick.2 sMove eTick
     { id := 1, lane := Lane.right, position := 100 }
     rfl rfl (by decide) (by decide) (by decide)⟩

/-- C6 counterexample: on the very first frame after `startGame`, 1ms in,
a spawn occurs (the obstacle list is empty) although the elapsed time (1)
does not exceed the freshly drawn threshold (800): the threshold set by
`startGame` is never consulted by the loop, and it is not redrawn by the
spawning tick either. -/
theorem c6_counterexample :
    spawnsOn sStart ∧
    (gameLoop sStart eFirst).game.cars
      = [{ id := 1, lane := Lane.left, position := SPAWN_POSITION }] ∧
    ¬ (sStart.timeToNextSpawn < eFirst.timestamp - sStart.lastTimestamp) ∧
    (gameLoop sStart eFirst).timeToNextSpawn = sStart.timeToNextSpawn := by
  refine ⟨by decide, rfl, ?_, rfl⟩
  show ¬ ((800 : ℚ) + 0 * 800 < 1 - 0)
  norm_num

/-- C6 amended: a new obstacle spawns on a tick exactly when the
post-move, post-cull obstacle list is empty on an effective tick
(`spawnsOn`), in which case the post-tick list is precisely the single new
obstacle at `SPAWN_POSITION`; no obstacle spawns while the status is not
`running`; and every post-tick obstacle is an old obstacle, a moved old
obstacle, or that single spawn — never more than one new obstacle per
tick.  The randomized spawn threshold plays no part. -/
theorem c6_spawn_iff_empty :
    (∀ (s : EngineState) (e : TickEvent), spawnsOn s →
        (gameLoop s e).game.cars
          = [{ id := e.spawnId, lane := e.spawnLane, position := SPAWN_POSITION }]) ∧
    (∀ (s : EngineState) (e : TickEvent), s.game.status ≠ Status.running →
        (gameLoop s e).game.cars = s.game.cars) ∧
    (∀ (s : EngineState) (e : TickEvent) (c : Car), c ∈ (gameLoop s e).game.cars →
        c ∈ s.game.cars ∨ (∃ c0 ∈ s.game.cars, c = moveCar c0) ∨
          c = { id := e.spawnId, lane := e.spawnLane, position := SPAWN_POSITION }) := by
  refine ⟨?_, ?_, ?_⟩
  · intro s e hs
    obtain ⟨hrun, hfr, hkept⟩ := hs
    have hcol : collisionOn s.game = false := by
      by_contra hc
      exact collision_movedCars_ne_nil s.game (by simpa using hc) hkept
    rw [gameLoop_cars_shape s e hrun hfr hcol]
    simp [newCarsOf, hkept]
  · intro s e h
    rw [gameLoop_not_running s e h]
  · intro s e c hc
    by_cases hrun : s.game.status = Status.running
    · by_cases hfr : s.scoreAnnouncing
      · rw [gameLoop_frozen s e hfr] at hc
        exact Or.inl hc
      · have hfr2 : s.scoreAnnouncing = false := by simpa using hfr
        by_cases hcol : collisionOn s.game = true
        · rw [(gameLoop_collision_cars s e hrun hfr2 hcol).1] at hc
          exact Or.inl hc
        · have hcol2 : collisionOn s.game = false := by simpa using hcol
          rw [gameLoop_cars_shape s e hrun hfr2 hcol2] at hc
          unfold newCarsOf at hc
          split_ifs at hc with hemp
          · simp only [List.mem_singleton] at hc
            exact Or.inr (Or.inr hc)
          · unfold movedCars at hc
            rw [List.mem_filter] at hc
            obtain ⟨hm, _⟩ := hc
            rw [List.mem_map] at hm
            obtain ⟨c0, hc0, hcc⟩ := hm
            exact Or.inr (Or.inl ⟨c0, hc0, hcc.symm⟩)
    · rw [gameLoop_not_running s e hrun] at hc
      exact Or.inl hc

/-- C6 witness: the spawn characterization applied on the first frame
after start, and the no-spawn guarantee applied in a game-over state. -/
theorem c6_spawn_iff_empty_witness :
    spawnsOn sStart ∧
    (gameLoop sStart eFirst).game.cars
      = [{ id := eFirst.spawnId, lane := eFirst.spawnLane, position := SPAWN_POSITION }] ∧
    sOver.game.status ≠ Status.running ∧
    (gameLoop sOver eTick).game.cars = sOver.game.cars :=
  ⟨by decide, c6_spawn_iff_empty.1 sStart eFirst (by decide), by decide,
   c6_spawn_iff_empty.2.1 sOver eTick (by decide)⟩

/-- C9: the freeze deadlock at a concrete failing input.  From `sFour`
(score 4, lastAnnouncedScore 0, a car crossing the hit line in the
opposite lane) the tick raises the score to 5 and asserts the freeze flag
before calling `speak`; in the source, `speak` is a no-op when
`window.speechSynthesis` is unavailable, so the `onend` completion
callback (the only code that clears the flag — modelled as `announceDone`)
never fires, there is no defensive timeout, and every subsequent tick
returns the state unchanged forever: the simulation does remain frozen
indefinitely, contrary to the claim. -/
theorem c9_freeze_deadlock :
    (gameLoop sFour eTick).game.score = 5 ∧
    (gameLoop sFour eTick).scoreAnnouncing = true ∧
    ∀ evs : List TickEvent, run (gameLoop sFour eTick) evs = gameLoop sFour eTick := by
  refine ⟨by decide, by decide, fun evs => run_frozen _ (by decide) evs⟩

/-- C7: issuing a restart from a game-over state resets the snapshot to
exactly `{status := running, score := 0, playerLane := left, cars := []}`,
and the previously live audio voice is stopped and released exactly once:
`startGame` itself does not touch the audio refs, the first tick after the
restart stops the old voice (the id of the spawned car differs from the stored
car id, App.jsx 288-294), and no later tick can ever stop it again, so its
stop count is exactly 1 along every continuation — no leak, no double
release.  A live voice is one that is current and not yet in the stop log;
`v < nextVoice` records that `v` was allocated by the ghost counter. -/
theorem c7_restart_resets_and_releases (s : EngineState) (v oldId : ℕ) (now r : ℚ)
    (_hst : s.game.status = Status.gameOver)
    (hfr : s.scoreAnnouncing = false)
    (hv : s.audio.currentVoice = some v)
    (hid : s.audio.currentCarId = some oldId)
    (hlive : s.audio.stops.count v = 0)
    (hlt : v < s.audio.nextVoice) :
    (startGame s now r).game
      = { status := Status.running, score := 0, playerLane := Lane.left, cars := [] } ∧
    ∀ (e : TickEvent) (evs : List TickEvent), e.spawnId ≠ oldId →
      (run (gameLoop (startGame s now r) e) evs).audio.stops.count v = 1 := by
  refine ⟨rfl, ?_⟩
  intro e evs hfresh
  have hrun : (startGame s now r).game.status = Status.running := rfl
  have hfr2 : (startGame s now r).scoreAnnouncing = false := hfr
  have haudio : (gameLoop (startGame s now r) e).audio
      = { currentVoice := none, currentCarId := some oldId,
          nextVoice := s.audio.nextVoice, stops := s.audio.stops ++ [v] } := by
    rw [gameLoop_audio_shape _ e hrun hfr2]
    exact audioStep_spawn s.audio
      { id := e.spawnId, lane := e.spawnLane, position := SPAWN_POSITION }
      v oldId hv hid hfresh rfl
  have hinv : audioInv v (gameLoop (startGame s now r) e).audio := by
    rw [haudio]
    refine ⟨?_, by simp, hlt⟩
    show (s.audio.stops ++ [v]).count v = 1
    rw [List.count_append]
    simp [hlive, List.count_cons]
  exact (audioInv_run v _ evs hinv).1

/-- C7 witness: restarting from `sOver` (voice 0 live, bound to car id 2)
resets the snapshot, and after the first tick plus one more tick voice 0
has been stopped exactly once. -/
theorem c7_restart_resets_and_releases_witness :
    sOver.game.status = Status.gameOver ∧
    sOver.audio.currentVoice = some 0 ∧
    sOver.audio.stops.count 0 = 0 ∧
    (startGame sOver 0 0).game
      = { status := Status.running, score := 0, playerLane := Lane.left, cars := [] } ∧
    (run (gameLoop (startGame sOver 0 0) eTick) [eFirst]).audio.stops.count 0 = 1 :=
  ⟨rfl, rfl, by decide,
   (c7_restart_resets_and_releases sOver 0 2 0 0 rfl rfl rfl rfl (by decide) (by decide)).1,
   (c7_restart_resets_and_releases sOver 0 2 0 0 rfl rfl rfl rfl (by decide) (by decide)).2
     eTick [eFirst] (by decide)⟩

/-- C8: on every effective, collision-free tick whose updated score
(`newScoreOf`) is positive, divisible by 5 and different from the last
announced score, the freeze flag is asserted, the score announcement is
issued (appended to the ghost log), and the last-announced score is
updated; the flag is never cleared by a tick — only the Announcer
completion (`announceDone`) clears it.  In the source, "has not already
been announced" is `newScore !== lastAnnouncedScoreRef.current`, a ref
that persists across restarts; the score-reaches-5 instance is the case
`newScoreOf s = 5`, `lastAnnouncedScore = 0`, exercised by the witness. -/
theorem c8_milestone_announce_freeze :
    (∀ (s : EngineState) (e : TickEvent),
        s.game.status = Status.running → s.scoreAnnouncing = false →
        collisionOn s.game = false →
        0 < newScoreOf s → newScoreOf s % 5 = 0 → newScoreOf s ≠ s.lastAnnouncedScore →
        (gameLoop s e).scoreAnnouncing = true ∧
        (gameLoop s e).announcements = s.announcements ++ [newScoreOf s] ∧
        (gameLoop s e).lastAnnouncedScore = newScoreOf s ∧
        (gameLoop s e).game.score = newScoreOf s) ∧
    (∀ (s : EngineState) (e : TickEvent),
        s.scoreAnnouncing = true → (gameLoop s e).scoreAnnouncing = true) ∧
    (∀ s : EngineState, (announceDone s).scoreAnnouncing = false) := by
  refine ⟨?_, ?_, fun s => rfl⟩
  · intro s e hrun hfr hcol hpos hmod hne
    rw [gameLoop_effective s e hrun hfr]
    unfold effectiveTick
    rw [if_neg (by simp [hcol]), if_pos ⟨hpos, hmod, hne⟩]
    exact ⟨rfl, rfl, rfl, rfl⟩
  · intro s e h
    rw [gameLoop_frozen s e h]
    exact h

/-- C8 witness: from `sFour` (score 4, a crossing car in the opposite
lane, lastAnnouncedScore 0) the tick reaches score 5 and issues the
announcement, asserting the freeze flag. -/
theorem c8_milestone_announce_freeze_witness :
    sFour.game.status = Status.running ∧ sFour.scoreAnnouncing = false ∧
    collisionOn sFour.game = false ∧ 0 < newScoreOf sFour ∧
    newScoreOf sFour % 5 = 0 ∧ newScoreOf sFour ≠ sFour.lastAnnouncedScore ∧
    (gameLoop sFour eTick).scoreAnnouncing = true ∧
    (gameLoop sFour eTick).announcements = sFour.announcements ++ [newScoreOf sFour] ∧
    (gameLoop sFour eTick).lastAnnouncedScore = newScoreOf sFour ∧
    (gameLoop sFour eTick).game.score = newScoreOf sFour :=
  ⟨rfl, rfl, by decide, by decide, by decide, by decide,
   c8_milestone_announce_freeze.1 sFour eTick rfl rfl (by decide) (by decide)
     (by decide) (by decide)⟩

/-- C10: starting from the empty obstacle list produced by `startGame`,
the obstacle collection never holds more than one obstacle along any run;
every effective tick from a ≤1-obstacle state leaves exactly one obstacle
(on a collision tick it is the unchanged colliding car, otherwise the
moved survivor or the fresh spawn); after a collision-free effective tick
the position of every obstacle is < 700 (expired obstacles are culled), and the
single spawn at `SPAWN_POSITION` is appended only when the post-move list
is empty. -/
theorem c10_single_obstacle_invariant :
    (∀ (s : EngineState) (now r : ℚ) (evs : List TickEvent),
        (run (startGame s now r) evs).game.cars.length ≤ 1) ∧
    (∀ (s : EngineState) (e : TickEvent),
        s.game.cars.length ≤ 1 → s.game.status = Status.running →
        s.scoreAnnouncing = false → (gameLoop s e).game.cars.length = 1) ∧
    (∀ (s : EngineState) (e : TickEvent),
        s.game.status = Status.running → s.scoreAnnouncing = false →
        collisionOn s.game = false →
        (∀ c ∈ (gameLoop s e).game.cars, c.position < 700) ∧
        (movedCars s.game.cars ≠ [] →
          (gameLoop s e).game.cars = movedCars s.game.cars)) := by
  refine ⟨?_, ?_, ?_⟩
  · intro s now r evs
    exact run_cars_le_one _ evs (by simp [startGame])
  · intro s e hlen hrun hfr
    exact gameLoop_cars_length_one s e hlen hrun hfr
  · intro s e hrun hfr hcol
    constructor
    · intro c hc
      rw [gameLoop_cars_shape s e hrun hfr hcol] at hc
      unfold newCarsOf at hc
      split_ifs at hc with hemp
      · simp only [List.mem_singleton] at hc
        rw [hc]
        unfold SPAWN_POSITION
        norm_num
      · unfold movedCars at hc
        rw [List.mem_filter] at hc
        exact of_decide_eq_true hc.2
    · intro hne
      rw [gameLoop_cars_shape s e hrun hfr hcol]
      unfold newCarsOf
      split_ifs with hemp
      · exact absurd (List.isEmpty_iff.mp hemp) hne
      · rfl

/-- C10 witness: a short concrete run stays at ≤1 obstacle; the tick from
`sMove` keeps exactly one obstacle, below 700. -/
theorem c10_single_obstacle_invariant_witness :
    (run (startGame initState 0 0) [eFirst]).game.cars.length ≤ 1 ∧
    (gameLoop sMove eTick).game.cars.length = 1 ∧
    ∀ c ∈ (gameLoop sMove eTick).game.cars, c.position < 700 :=
  ⟨c10_single_obstacle_invariant.1 initState 0 0 [eFirst],
   c10_single_obstacle_invariant.2.1 sMove eTick (by decide) rfl rfl,
   (c10_single_obstacle_invariant.2.2 sMove eTick rfl rfl (by decide)).1⟩

end RunnerGame
